import Mathlib

/-!
Verification of the dd.weather.gc.ca backend (src/backends/dd.weather.gc.ca.go).

The Go source is shallowly embedded below.  Modeling conventions:

* 64-bit floating point numbers are modeled as exact rationals; every numeric
  literal appearing in the claims is small enough that the float and rational
  computations select the same control-flow branches.
* Network effects are modeled by a NetEnv record supplying the directory
  response, the bulletin response for each URL, and the XML decoder
  (encoding/xml is an external library, modeled as an uninterpreted
  environment function from the body text to a decode result).
* The process-terminating calls log.Fatal and runtime panics are modeled as
  distinguished outcomes of Fetch (FetchOutcome.fatal / FetchOutcome.panicked),
  since they never return to the caller.
* Errors built with fmt.Errorf are modeled as constructors of MscError that
  keep the dynamic parts of the message; errorMessage renders the same text
  as the corresponding fmt.Errorf format string.
-/

/-- Numeric value of a run of decimal digit characters, most significant
first, as strconv accumulates them. -/
def digitsVal (ds : List Char) : Nat :=
  ds.foldl (fun n c => 10 * n + (c.toNat - 48)) 0

/-- The exact rational denoted by an optional sign, an integer digit run and
a fractional digit run, used as the value produced by strconv.ParseFloat. -/
def decimalToRat (neg : Bool) (intDs fracDs : List Char) : ℚ :=
  let n : Nat := digitsVal intDs * 10 ^ fracDs.length + digitsVal fracDs
  let v : ℚ := mkRat (Int.ofNat n) (10 ^ fracDs.length)
  if neg then -v else v

/-- Model of strconv.ParseFloat (s, 64) restricted to plain decimal notation:
an optional sign, then digits, then an optional point followed by digits, with
at least one digit overall.  Exotic forms accepted by strconv (exponents,
infinities, NaN, hexadecimal floats, digit-group underscores) are not modeled;
no claim of this development depends on them, and every string the parser is
applied to in the claims is either plain decimal or rejected by both.  The
result is the exact rational value (floats are modeled as exact rationals). -/
def parseFloatQ (cs : List Char) : Option ℚ :=
  let signed : Bool × List Char :=
    match cs with
    | '-' :: rest => (true, rest)
    | '+' :: rest => (false, rest)
    | _ => (false, cs)
  let neg := signed.1
  let cs := signed.2
  let intDs := cs.takeWhile Char.isDigit
  match cs.drop intDs.length with
  | [] => if intDs.isEmpty then none else some (decimalToRat neg intDs [])
  | '.' :: fs =>
    if fs.all Char.isDigit && !(intDs.isEmpty && fs.isEmpty) then
      some (decimalToRat neg intDs fs)
    else none
  | _ => none

/-- Whether a character list matches the regular expression piece
-?[0-9]*(\.[0-9]+)? used on each side of the comma in fetchLocation
(line 416): an optional minus, a possibly empty digit run, and an optional
point followed by at least one digit. -/
def numShape (cs : List Char) : Bool :=
  let cs := match cs with | '-' :: rest => rest | _ => cs
  let ds := cs.takeWhile Char.isDigit
  match cs.drop ds.length with
  | [] => true
  | '.' :: fs => !fs.isEmpty && fs.all Char.isDigit
  | _ => false

/-- Model of strings.Split (location, comma), the splitter of line 417:
splits a character list at every comma, keeping empty segments. -/
def splitOnComma : List Char → List (List Char)
  | [] => [[]]
  | ',' :: rest => [] :: splitOnComma rest
  | c :: rest =>
    match splitOnComma rest with
    | [] => [[c]]
    | h :: t => (c :: h) :: t

/-- Model of the anchored match of line 416 against the regular expression
hat -?[0-9]*(\.[0-9]+)?,-?[0-9]*(\.[0-9]+)? dollar.  A full match is exactly a
split into two comma-free segments each matching numShape; since a numShape
segment can contain only minus, digits and a point, never a comma, the match
holds exactly when splitting at commas yields two segments of that shape. -/
def locMatches (cs : List Char) : Bool :=
  match splitOnComma cs with
  | [a, b] => numShape a && numShape b
  | _ => false

/-- Error values of the backend, one constructor per fmt.Errorf site of the
source, keeping the dynamic message parts.  The three early failure returns
of fetchNearestStation (http.Get, ReadAll, header ReadSlice, lines 437-453)
are collapsed into the single constructor directoryFetch, since no claim
distinguishes them; fetchSiteData transport and read failures (lines 493-501)
are likewise collapsed into siteFetch. -/
inductive MscError where
  | locationFormat
  | latitude (component : String)
  | longitude (component : String)
  | directoryFetch (msg : String)
  | csvProcess (msg : String)
  | siteFetch (uri msg : String)
  | unmarshal (uri msg body : String)
deriving DecidableEq

/-- The message text rendered by the fmt.Errorf call corresponding to each
constructor (for latitude and longitude the wrapped strconv error text is
abbreviated to the offending component string). -/
def errorMessage : MscError → String
  | .locationFormat => "expected location to be only latitude,longitude"
  | .latitude component => "latitude error: " ++ component
  | .longitude component => "longitude error: " ++ component
  | .directoryFetch msg => "unable to get the station directory: " ++ msg
  | .csvProcess msg => "unable to process the csv: " ++ msg
  | .siteFetch uri msg => "unable to get (" ++ uri ++ ") " ++ msg
  | .unmarshal uri msg body =>
    "unable to unmarshal response (" ++ uri ++ "): " ++ msg ++
      "\nThe json body is: " ++ body

/-- Embedding of fetchLocation (lines 415-431): match the location string
against the anchored regular expression; on a match, split at the comma and
parse the two components with strconv.ParseFloat, failing with a latitude or
longitude error if a component does not parse; otherwise fail with the
location-format error of line 427. -/
def fetchLocation (location : String) : Except MscError (ℚ × ℚ) :=
  if locMatches location.data then
    let s := splitOnComma location.data
    match parseFloatQ (s.getD 0 []) with
    | none => .error (.latitude (String.mk (s.getD 0 [])))
    | some lat =>
      match parseFloatQ (s.getD 1 []) with
      | none => .error (.longitude (String.mk (s.getD 1 [])))
      | some lon => .ok (lat, lon)
  else
    .error .locationFormat

/-- One result of csv.Read in the scan of fetchNearestStation: either a
successfully read record (err == nil) or a csv parse failure (a non-nil,
non-EOF error).  The end of the list models io.EOF. -/
inductive CsvRead where
  | record (fields : List String)
  | readErr (msg : String)

/-- The loop state of fetchNearestStation (lines 433 and 456): the running
minimum distance (none models the math.MaxFloat64 sentinel, which every
station distance arising from the directory compares below) and the named
result variables, zero-initialized. -/
structure ScanState where
  minDistance : Option ℚ
  nearestStationCode : String
  province : String

def initScanState : ScanState := ⟨none, "", ""⟩

/-- Embedding of the csv scan loop of fetchNearestStation (lines 458-484).
Each list element is one csv.Read result after the header line; exhausting
the list models io.EOF.  The source tests, in order,
if err != io.EOF then break, else if err != nil then return the csv error.
A nil error (a successfully read record) and a csv parse error both differ
from io.EOF, so both take the break and the function returns the current
state, still the zero values; only err == io.EOF reaches the else-if, whose
condition io.EOF != nil then holds, returning the csv-processing error
of line 463.  The loop body of lines 466-483 is therefore unreachable; the
computation it was meant to perform is embedded separately as specScanStep
and specResolveNearest below. -/
def scanLoop (lat lon : ℚ) (st : ScanState) :
    List CsvRead → Except MscError (String × String)
  | [] => .error (.csvProcess "EOF")
  | _ :: _ => .ok (st.nearestStationCode, st.province)

/-- Embedding of fetchNearestStation (lines 433-487).  The argument dir
supplies the network effect: an early failure of http.Get, ReadAll or the
header-line read (lines 436-454), or the stream of csv.Read results that
follow the skipped header line. -/
def fetchNearestStation (dir : Except String (List CsvRead)) (lat lon : ℚ) :
    Except MscError (String × String) :=
  match dir with
  | .error e => .error (.directoryFetch e)
  | .ok rows => scanLoop lat lon initScanState rows

/-- Modelled from the spec: one step of the nearest-station scan that section
4.2 of the spec describes and that the unreachable loop body of lines 466-483
implements: strip the trailing one-character unit suffix of columns 3 and 4,
parse them as floats, skip the record (with a log) if either fails, otherwise
compare the sum of squared coordinate deltas strictly against the running
minimum, keeping the earlier record on ties. -/
def specScanStep (lat lon : ℚ) (st : ScanState) (fields : List String) :
    ScanState :=
  match parseFloatQ (fields.getD 3 "").data.dropLast with
  | none => st
  | some stationLat =>
    match parseFloatQ (fields.getD 4 "").data.dropLast with
    | none => st
    | some stationLon =>
      let dlat := lat - stationLat
      let dlon := lon - stationLon
      let distance := dlat * dlat + dlon * dlon
      match st.minDistance with
      | none => ⟨some distance, fields.getD 0 "", fields.getD 2 ""⟩
      | some m =>
        if distance < m then ⟨some distance, fields.getD 0 "", fields.getD 2 ""⟩
        else st

/-- Modelled from the spec: the nearest-station resolution of section 4.2,
folding specScanStep over all directory records; none is returned when the
directory is empty or every record is malformed (no minimum was ever
recorded). -/
def specResolveNearest (lat lon : ℚ) (rows : List (List String)) :
    Option (String × String) :=
  let fin := rows.foldl (specScanStep lat lon) initScanState
  fin.minDistance.map (fun _ => (fin.nearestStationCode, fin.province))

/-- The request URI built by fetchSiteData (line 490) with fmt.Sprintf from
the station code, the province and the language character. -/
def siteURI (stationCode province : String) (lang : Char) : String :=
  "https://dd.weather.gc.ca/citypage_weather/xml/" ++ stationCode ++ "/" ++
    province ++ "_" ++ String.singleton lang ++ ".xml"

/-- Stand-in for the decoded siteData document (lines 27-409).  No claim of
this development inspects the decoded document, and no field of it influences
control flow in the source, so only representative envelope fields are kept;
decoding is supplied by the network environment. -/
structure siteData where
  license : String
  warnings : String
deriving DecidableEq

/-- The network environment of one Fetch invocation: the station-directory
response (see fetchNearestStation), the bulletin response body keyed by the
request URI, and the xml.Unmarshal result for a given body (the XML decoder
is an external library, modeled as an uninterpreted function). -/
structure NetEnv where
  directory : Except String (List CsvRead)
  site : String → Except String String
  decode : String → Except String siteData

/-- Embedding of fetchSiteData (lines 489-509): build the URI, perform the
request, and decode the body, wrapping a decode failure in the unmarshal
error of line 505 which carries the URI, the decode error text and the raw
response body. -/
def fetchSiteData (env : NetEnv) (stationCode province : String)
    (lang : Char) : Except MscError siteData :=
  let uri := siteURI stationCode province lang
  match env.site uri with
  | .error e => .error (.siteFetch uri e)
  | .ok body =>
    match env.decode body with
    | .error e => .error (.unmarshal uri e body)
    | .ok data => .ok data

/-- Modelled from the spec: the RetrievalResult output contract (iface.Data)
belongs to the host application and is not under src; the spec says only
that the pipeline must populate it or fail, and that the source leaves it
unpopulated.  It is modeled as a record whose zero value carries no
assembled document. -/
structure IfaceData where
  assembled : Option siteData
deriving DecidableEq

/-- The zero value of the output contract, as declared by var ret iface.Data
on line 512. -/
def zeroData : IfaceData := ⟨none⟩

/-- The possible outcomes of one Fetch invocation: a value returned to the
caller, process termination through log.Fatal, or a runtime panic. -/
inductive FetchOutcome where
  | ret (d : IfaceData)
  | fatal (e : MscError)
  | panicked (msg : String)
deriving DecidableEq

/-- The backend configuration (lines 22-24): the language string registered
by Setup (line 412, default "e"). -/
structure mscConfig where
  lang : String

/-- Embedding of mscConfig.Fetch (lines 511-525): run the three stages in
sequence, calling log.Fatal on the first failure; the expression
rune (c.lang [0]) is evaluated before fetchSiteData is invoked and panics
with an index-out-of-range error when the language string is empty (modeled
by matching on the character list of the string before the fetchSiteData
call); on success the decoded document is only logged and the
zero-initialized ret is returned.  numdays is never consulted. -/
def Fetch (c : mscConfig) (env : NetEnv) (location : String)
    (numdays : Int) : FetchOutcome :=
  let ret : IfaceData := zeroData
  match fetchLocation location with
  | .error e => .fatal e
  | .ok (lat, lon) =>
    match fetchNearestStation env.directory lat lon with
    | .error e => .fatal e
    | .ok (nearestStationCode, province) =>
      match c.lang.data with
      | [] => .panicked "index out of range"
      | ch :: _ =>
        match fetchSiteData env nearestStationCode province ch with
        | .error e => .fatal e
        | .ok _data => .ret ret

/-- Directory stream used by concrete witnesses: a single well-formed
record. -/
def dirW : Except String (List CsvRead) :=
  .ok [CsvRead.record ["A", "CityA", "ON", "1N", "2W"]]

/-- Bulletin environment used by concrete witnesses: responds only at the
URI for an empty station code and region with language x. -/
def siteW1 : String → Except String String :=
  fun u => if u = siteURI "" "" 'x' then .ok "B" else .error "other1"

/-- A second bulletin environment agreeing with siteW1 exactly at that URI. -/
def siteW2 : String → Except String String :=
  fun u => if u = siteURI "" "" 'x' then .ok "B" else .error "other2"

/-- Bulletin environment answering every URI with the same body. -/
def siteOkW : String → Except String String := fun _ => .ok "body"

/-- Decoder that accepts every body. -/
def decW : String → Except String siteData := fun _ => .ok ⟨"", ""⟩

/-- Decoder that rejects every body with a fixed error text. -/
def decFailW : String → Except String siteData :=
  fun _ => .error "expected element type siteData"

/-- The value of decimalToRat as a quotient of cast naturals, for numeric
evaluation. -/
theorem decimalToRat_eq (neg : Bool) (intDs fracDs : List Char) :
    decimalToRat neg intDs fracDs =
      (if neg then (-1 : ℚ) else 1) *
        ((digitsVal intDs * 10 ^ fracDs.length + digitsVal fracDs : ℕ) : ℚ) /
        ((10 ^ fracDs.length : ℕ) : ℚ) := by
  unfold decimalToRat
  dsimp only
  split <;> (rw [Rat.mkRat_eq_div]; push_cast [Int.ofNat_eq_natCast]; ring)

/-- C9: whenever the first csv.Read after the header succeeds (and whatever
follows it in the stream), fetchNearestStation returns empty station code,
empty region and no error, independently of the query coordinate: the loop
breaks on any read whose error differs from io.EOF, so no record is ever
examined. -/
theorem c9_first_successful_read_short_circuits (lat lon : ℚ)
    (fields : List String) (rest : List CsvRead) :
    fetchNearestStation (.ok (CsvRead.record fields :: rest)) lat lon =
      .ok ("", "") := rfl

/-- C2 counterexample: a directory whose single record has malformed
coordinate fields makes fetchNearestStation return success with empty
station code and region (not a NoStationFound failure), and an empty
directory makes it fail with the csv-processing error (not NoStationFound
either). -/
theorem c2_counterexample :
    fetchNearestStation
        (.ok [CsvRead.record ["A", "CityA", "ON", "badN", "badW"]]) 0 0 =
      .ok ("", "")
    ∧ fetchNearestStation (.ok []) 0 0 = .error (.csvProcess "EOF") :=
  ⟨rfl, rfl⟩

/-- C2 amended: if the directory stream after the header is empty, the
lookup fails with the csv-processing error wrapping io.EOF; if it contains
at least one read result, including when every record is malformed, the
lookup returns success with empty station code and region. -/
theorem c2_empty_or_malformed_directory (lat lon : ℚ) :
    fetchNearestStation (.ok []) lat lon = .error (.csvProcess "EOF")
    ∧ ∀ (r : CsvRead) (rest : List CsvRead),
        fetchNearestStation (.ok (r :: rest)) lat lon = .ok ("", "") :=
  ⟨rfl, fun _ _ => rfl⟩

/-- C3: on the directory of the claim, with a malformed-latitude record
followed by a well-formed one, the source scan returns empty code and region
with no error: the malformed record is not skipped-and-logged and the later
well-formed record is never considered, because the loop breaks on the first
successful read.  The scan the spec describes (specResolveNearest) would
skip the malformed record and select the well-formed one. -/
theorem c3_malformed_row_aborts_scan_in_source :
    fetchNearestStation
        (.ok [CsvRead.record ["B", "CityB", "RB", "xxN", "1W"],
              CsvRead.record ["G", "CityG", "RG", "2N", "3W"]]) 2 3 =
      .ok ("", "")
    ∧ specResolveNearest 2 3
        [["B", "CityB", "RB", "xxN", "1W"],
         ["G", "CityG", "RG", "2N", "3W"]] = some ("G", "RG") :=
  ⟨rfl, rfl⟩

/-- C1: on the station directory of the claim, records A at (0,0), B at
(1,1) and C at (-1,-1), and query (0.4, 0.4), the source fetchNearestStation
does not return station A: it breaks out of the scan on the first successful
read and returns empty code and region with no error.  The nearest-station
scan the spec describes (specResolveNearest, sum of squared deltas, strict
less-than, first wins) does return A with region RA on the same input, so
the unreachable loop body matches the claim and the loop condition is the
slip. -/
theorem c1_source_scan_contradicts_nearest_selection :
    fetchNearestStation
        (.ok [CsvRead.record ["A", "CityA", "RA", "0N", "0W"],
              CsvRead.record ["B", "CityB", "RB", "1N", "1W"],
              CsvRead.record ["C", "CityC", "RC", "-1N", "-1W"]])
        (0.4 : ℚ) (0.4 : ℚ) = .ok ("", "")
    ∧ specResolveNearest (0.4 : ℚ) (0.4 : ℚ)
        [["A", "CityA", "RA", "0N", "0W"],
         ["B", "CityB", "RB", "1N", "1W"],
         ["C", "CityC", "RC", "-1N", "-1W"]] = some ("A", "RA") := by
  have hq0 : decimalToRat false ['0'] [] = 0 := by
    rw [decimalToRat_eq]
    norm_num [show digitsVal ['0'] = 0 from by decide,
      show digitsVal ([] : List Char) = 0 from by decide]
  have hq1 : decimalToRat false ['1'] [] = 1 := by
    rw [decimalToRat_eq]
    norm_num [show digitsVal ['1'] = 1 from by decide,
      show digitsVal ([] : List Char) = 0 from by decide]
  have hqm1 : decimalToRat true ['1'] [] = -1 := by
    rw [decimalToRat_eq]
    norm_num [show digitsVal ['1'] = 1 from by decide,
      show digitsVal ([] : List Char) = 0 from by decide]
  refine ⟨rfl, ?_⟩
  have e1 : specScanStep (0.4 : ℚ) 0.4 initScanState
      ["A", "CityA", "RA", "0N", "0W"] =
      ⟨some (((0.4 : ℚ) - decimalToRat false ['0'] []) *
          ((0.4 : ℚ) - decimalToRat false ['0'] []) +
        ((0.4 : ℚ) - decimalToRat false ['0'] []) *
          ((0.4 : ℚ) - decimalToRat false ['0'] [])), "A", "RA"⟩ := rfl
  have e1q : specScanStep (0.4 : ℚ) 0.4 initScanState
      ["A", "CityA", "RA", "0N", "0W"] = ⟨some ((8 : ℚ)/25), "A", "RA"⟩ := by
    rw [e1, hq0]
    simp only [ScanState.mk.injEq, Option.some.injEq]
    norm_num
  have e2 : specScanStep (0.4 : ℚ) 0.4 ⟨some ((8 : ℚ)/25), "A", "RA"⟩
      ["B", "CityB", "RB", "1N", "1W"] =
      (if ((0.4 : ℚ) - decimalToRat false ['1'] []) *
            ((0.4 : ℚ) - decimalToRat false ['1'] []) +
          ((0.4 : ℚ) - decimalToRat false ['1'] []) *
            ((0.4 : ℚ) - decimalToRat false ['1'] []) < (8 : ℚ)/25 then
        ⟨some (((0.4 : ℚ) - decimalToRat false ['1'] []) *
            ((0.4 : ℚ) - decimalToRat false ['1'] []) +
          ((0.4 : ℚ) - decimalToRat false ['1'] []) *
            ((0.4 : ℚ) - decimalToRat false ['1'] [])), "B", "RB"⟩
      else ⟨some ((8 : ℚ)/25), "A", "RA"⟩) := rfl
  have e2q : specScanStep (0.4 : ℚ) 0.4 ⟨some ((8 : ℚ)/25), "A", "RA"⟩
      ["B", "CityB", "RB", "1N", "1W"] = ⟨some ((8 : ℚ)/25), "A", "RA"⟩ := by
    rw [e2, if_neg]
    rw [hq1]
    norm_num
  have e3 : specScanStep (0.4 : ℚ) 0.4 ⟨some ((8 : ℚ)/25), "A", "RA"⟩
      ["C", "CityC", "RC", "-1N", "-1W"] =
      (if ((0.4 : ℚ) - decimalToRat true ['1'] []) *
            ((0.4 : ℚ) - decimalToRat true ['1'] []) +
          ((0.4 : ℚ) - decimalToRat true ['1'] []) *
            ((0.4 : ℚ) - decimalToRat true ['1'] []) < (8 : ℚ)/25 then
        ⟨some (((0.4 : ℚ) - decimalToRat true ['1'] []) *
            ((0.4 : ℚ) - decimalToRat true ['1'] []) +
          ((0.4 : ℚ) - decimalToRat true ['1'] []) *
            ((0.4 : ℚ) - decimalToRat true ['1'] [])), "C", "RC"⟩
      else ⟨some ((8 : ℚ)/25), "A", "RA"⟩) := rfl
  have e3q : specScanStep (0.4 : ℚ) 0.4 ⟨some ((8 : ℚ)/25), "A", "RA"⟩
      ["C", "CityC", "RC", "-1N", "-1W"] = ⟨some ((8 : ℚ)/25), "A", "RA"⟩ := by
    rw [e3, if_neg]
    rw [hqm1]
    norm_num
  unfold specResolveNearest
  simp only [List.foldl_cons, List.foldl_nil]
  rw [e1q, e2q, e3q]
  rfl

/-- C5 counterexample: the input consisting of a bare comma is not two
signed decimal numbers, yet the parser does not fail with the
location-format error: both empty sides match the possibly-empty digit run
of the regular expression, so the match succeeds and strconv then rejects
the empty latitude component, producing the latitude error instead. -/
theorem c5_counterexample :
    fetchLocation "," = .error (.latitude "")
    ∧ fetchLocation "," ≠ .error .locationFormat := by
  refine ⟨rfl, ?_⟩
  intro h
  rw [show fetchLocation "," = .error (.latitude "") from rfl] at h
  exact MscError.noConfusion (Except.error.inj h)

/-- C5 amended: every input string that fails the anchored regular
expression match of line 416 (two comma-separated components, each an
optional minus, a possibly empty digit run and an optional fractional part)
is rejected with the location-format error; strings that match the pattern
with an empty numeric component instead fail later, with a latitude or
longitude parse error. -/
theorem c5_nonmatching_fails_with_format_error (s : String)
    (h : locMatches s.data = false) :
    fetchLocation s = .error .locationFormat := by
  simp [fetchLocation, h]

/-- Witness for the C5 amended theorem at the concrete non-matching input
abc. -/
theorem c5_nonmatching_witness :
    locMatches "abc".data = false
    ∧ fetchLocation "abc" = .error .locationFormat :=
  ⟨rfl, c5_nonmatching_fails_with_format_error "abc" rfl⟩

/-- C6: the accepted location string of the claim yields exactly its two
components as numbers (the parse is exact in the rational model), the same
string with a trailing third component is rejected with the location-format
error, and the out-of-range longitude 400 is passed through without
clamping. -/
theorem c6_components_parsed_independently :
    fetchLocation "45.4215,-75.6972" = .ok (45.4215, -75.6972)
    ∧ fetchLocation "45.4215,-75.6972,extra" = .error .locationFormat
    ∧ fetchLocation "0,400" = .ok (0, 400) := by
  have hA : decimalToRat false ['4', '5'] ['4', '2', '1', '5'] = 45.4215 := by
    rw [decimalToRat_eq]
    norm_num [show digitsVal ['4', '5'] = 45 from by decide,
      show digitsVal ['4', '2', '1', '5'] = 4215 from by decide]
  have hB : decimalToRat true ['7', '5'] ['6', '9', '7', '2'] = -75.6972 := by
    rw [decimalToRat_eq]
    norm_num [show digitsVal ['7', '5'] = 75 from by decide,
      show digitsVal ['6', '9', '7', '2'] = 6972 from by decide]
  have hC : decimalToRat false ['0'] [] = 0 := by
    rw [decimalToRat_eq]
    norm_num [show digitsVal ['0'] = 0 from by decide,
      show digitsVal ([] : List Char) = 0 from by decide]
  have hD : decimalToRat false ['4', '0', '0'] [] = 400 := by
    rw [decimalToRat_eq]
    norm_num [show digitsVal ['4', '0', '0'] = 400 from by decide,
      show digitsVal ([] : List Char) = 0 from by decide]
  refine ⟨?_, rfl, ?_⟩
  · rw [show fetchLocation "45.4215,-75.6972" =
        .ok (decimalToRat false ['4', '5'] ['4', '2', '1', '5'],
          decimalToRat true ['7', '5'] ['6', '9', '7', '2']) from rfl, hA, hB]
  · rw [show fetchLocation "0,400" =
        .ok (decimalToRat false ['0'] [],
          decimalToRat false ['4', '0', '0'] []) from rfl, hC, hD]

/-- C4: whenever Fetch returns to its caller at all (rather than
terminating the process through log.Fatal or panicking), the returned value
is the zero value of the output contract, for every configuration, network
environment, location and forecast horizon. -/
theorem c4_fetch_returns_zero_value (c : mscConfig) (env : NetEnv)
    (location : String) (numdays : Int) (d : IfaceData)
    (h : Fetch c env location numdays = .ret d) : d = zeroData := by
  simp only [Fetch] at h
  repeat' split at h
  all_goals simp_all

/-- Witness for C4: a complete successful run through all three stages
returns exactly the zero value. -/
theorem c4_fetch_returns_zero_value_witness :
    Fetch ⟨"e"⟩ ⟨dirW, siteOkW, decW⟩ "0,0" 3 = .ret zeroData
    ∧ zeroData = zeroData :=
  ⟨rfl, c4_fetch_returns_zero_value ⟨"e"⟩ ⟨dirW, siteOkW, decW⟩ "0,0" 3
    zeroData rfl⟩

/-- C7: when the pipeline reaches the bulletin stage, the only part of the
bulletin environment it consults is the response at the URI built from the
station code, the region and the first character of the configured language
string (two environments agreeing at that URI give identical outcomes), and
that URI is exactly the stationCode/region_language.xml parameterization;
the language character is taken verbatim from the front of the configured
string with no validation, since the statement holds for every ch. -/
theorem c7_bulletin_uri_uses_first_language_char
    (c : mscConfig) (ch : Char) (rest : List Char)
    (hlang : c.lang.data = ch :: rest)
    (location : String) (numdays : Int) (lat lon : ℚ)
    (stationCode province : String)
    (dir : Except String (List CsvRead))
    (site site2 : String → Except String String)
    (dec : String → Except String siteData)
    (h1 : fetchLocation location = .ok (lat, lon))
    (h2 : fetchNearestStation dir lat lon = .ok (stationCode, province))
    (hagree : site (siteURI stationCode province ch) =
      site2 (siteURI stationCode province ch)) :
    Fetch c ⟨dir, site, dec⟩ location numdays =
      Fetch c ⟨dir, site2, dec⟩ location numdays
    ∧ siteURI stationCode province ch =
      "https://dd.weather.gc.ca/citypage_weather/xml/" ++ stationCode ++
        "/" ++ province ++ "_" ++ String.singleton ch ++ ".xml" := by
  refine ⟨?_, rfl⟩
  simp only [Fetch, h1, h2, hlang, fetchSiteData, hagree]

/-- Witness for C7 at a concrete configuration whose language string xQ is
outside the recognized set, showing the first character x participates
verbatim. -/
theorem c7_witness :
    ("xQ" : String).data = 'x' :: ['Q']
    ∧ (Fetch ⟨"xQ"⟩ ⟨dirW, siteW1, decW⟩ "0,0" 3 =
        Fetch ⟨"xQ"⟩ ⟨dirW, siteW2, decW⟩ "0,0" 3
      ∧ siteURI "" "" 'x' =
        "https://dd.weather.gc.ca/citypage_weather/xml/" ++ "" ++ "/" ++ "" ++
          "_" ++ String.singleton 'x' ++ ".xml") :=
  ⟨rfl, c7_bulletin_uri_uses_first_language_char ⟨"xQ"⟩ 'x' ['Q'] rfl "0,0" 3
    (decimalToRat false ['0'] []) (decimalToRat false ['0'] []) "" "" dirW
    siteW1 siteW2 decW rfl rfl rfl⟩

/-- C8: whenever the bulletin request succeeds but the body fails structural
decoding, fetchSiteData fails with the unmarshal error built at line 505,
and the rendered message of that error contains the raw response body. -/
theorem c8_decode_failure_carries_raw_body
    (env : NetEnv) (stationCode province : String) (lang : Char)
    (body emsg : String)
    (hsite : env.site (siteURI stationCode province lang) = .ok body)
    (hdec : env.decode body = .error emsg) :
    fetchSiteData env stationCode province lang =
      .error (.unmarshal (siteURI stationCode province lang) emsg body)
    ∧ ∃ pre, errorMessage
        (.unmarshal (siteURI stationCode province lang) emsg body) =
        pre ++ body := by
  constructor
  · simp only [fetchSiteData, hsite, hdec]
  · exact ⟨"unable to unmarshal response (" ++
      siteURI stationCode province lang ++ "): " ++ emsg ++
      "\nThe json body is: ", rfl⟩

/-- Witness for C8 at a concrete station, region, language and failing
decoder. -/
theorem c8_witness :
    NetEnv.site ⟨dirW, siteOkW, decFailW⟩ (siteURI "s0000430" "ON" 'e') =
      .ok "body"
    ∧ (fetchSiteData ⟨dirW, siteOkW, decFailW⟩ "s0000430" "ON" 'e' =
        .error (.unmarshal (siteURI "s0000430" "ON" 'e')
          "expected element type siteData" "body")
      ∧ ∃ pre, errorMessage (.unmarshal (siteURI "s0000430" "ON" 'e')
          "expected element type siteData" "body") = pre ++ "body") :=
  ⟨rfl, c8_decode_failure_carries_raw_body ⟨dirW, siteOkW, decFailW⟩
    "s0000430" "ON" 'e' "body" "expected element type siteData" rfl rfl⟩

/-- C10: with an empty configured language string, once the first two stages
succeed, Fetch panics with an index-out-of-range error while taking the
first character of the language string, before the bulletin request: the
outcome is the panic for every bulletin environment, so no part of the
bulletin environment is consulted. -/
theorem c10_empty_language_panics
    (dir : Except String (List CsvRead))
    (site : String → Except String String)
    (dec : String → Except String siteData)
    (location : String) (numdays : Int) (lat lon : ℚ)
    (stationCode province : String)
    (h1 : fetchLocation location = .ok (lat, lon))
    (h2 : fetchNearestStation dir lat lon = .ok (stationCode, province)) :
    Fetch ⟨""⟩ ⟨dir, site, dec⟩ location numdays =
      .panicked "index out of range" := by
  simp only [Fetch, h1, h2]

/-- Witness for C10: a concrete run whose first two stages succeed and whose
configured language string is empty panics. -/
theorem c10_witness :
    fetchLocation "0,0" =
      .ok (decimalToRat false ['0'] [], decimalToRat false ['0'] [])
    ∧ fetchNearestStation dirW (decimalToRat false ['0'] [])
        (decimalToRat false ['0'] []) = .ok ("", "")
    ∧ Fetch ⟨""⟩ ⟨dirW, siteOkW, decW⟩ "0,0" 3 =
      .panicked "index out of range" :=
  ⟨rfl, rfl, c10_empty_language_panics dirW siteOkW decW "0,0" 3
    (decimalToRat false ['0'] []) (decimalToRat false ['0'] []) "" ""
    rfl rfl⟩
